import Mathlib

/-
  Shallow embedding of the silverbullet robot handle (src/silverbullet/robot.py).
  Scalars are modelled as rationals; the external physics-engine client is an
  abstract record of query results; engine mutation commands are reified as data.
-/

namespace SilverBullet

/-- A 3-component vector (numpy 3-array / 3-tuple in the source). -/
@[ext]
structure Vec3 where
  x : ℚ
  y : ℚ
  z : ℚ
deriving DecidableEq, Repr

/-- A 4-component quaternion in the engine's (x, y, z, w) convention. -/
@[ext]
structure Quat where
  x : ℚ
  y : ℚ
  z : ℚ
  w : ℚ
deriving DecidableEq, Repr

instance : Add Vec3 := ⟨fun a b => ⟨a.x + b.x, a.y + b.y, a.z + b.z⟩⟩

/-- Hamilton product of quaternions, (x, y, z, w) component order. -/
def Quat.mul (a b : Quat) : Quat :=
  ⟨a.w * b.x + a.x * b.w + a.y * b.z - a.z * b.y,
   a.w * b.y - a.x * b.z + a.y * b.w + a.z * b.x,
   a.w * b.z + a.x * b.y - a.y * b.x + a.z * b.w,
   a.w * b.w - a.x * b.x - a.y * b.y - a.z * b.z⟩

/-- Quaternion conjugate. -/
def Quat.conj (a : Quat) : Quat := ⟨-a.x, -a.y, -a.z, a.w⟩

/-- Embed a vector as a pure quaternion. -/
def Quat.ofVec (v : Vec3) : Quat := ⟨v.x, v.y, v.z, 0⟩

/-- Vector part of a quaternion. -/
def Quat.vec (q : Quat) : Vec3 := ⟨q.x, q.y, q.z⟩

/-- Rotation of a vector by a quaternion via the sandwich product. -/
def quatRotate (q : Quat) (v : Vec3) : Vec3 :=
  ((q.mul (Quat.ofVec v)).mul q.conj).vec

/-- Pose: a 3-vector position and a 4-component engine-convention quaternion. -/
@[ext]
structure Pose where
  vector : Vec3
  quaternion : Quat
deriving DecidableEq, Repr

/-- Modelled from the spec: `pybullet.multiplyTransforms`, the engine
transform-composition primitive, is not part of this repository's sources.
Per the spec it combines two poses with the engine's transform-composition
rule, consistent with homogeneous-transform multiplication: the result
position is A's position plus A's rotation applied to B's position, and the
result orientation is the quaternion product. -/
def multiplyTransforms (vA : Vec3) (qA : Quat) (vB : Vec3) (qB : Quat) :
    Vec3 × Quat :=
  (vA + quatRotate qA vB, qA.mul qB)

/-- `Pose.dot`: composition of two poses (robot.py lines 17-20). -/
def Pose.dot (p q : Pose) : Pose :=
  let r := multiplyTransforms p.vector p.quaternion q.vector q.quaternion
  Pose.mk r.1 r.2

/-- The identity pose: zero position, unit quaternion (0, 0, 0, 1). -/
def identityPose : Pose := ⟨⟨0, 0, 0⟩, ⟨0, 0, 0, 1⟩⟩

/-- JointState dataclass (robot.py lines 23-27). -/
structure JointState where
  position : ℚ
  velocity : ℚ
  applied_torque : ℚ
deriving DecidableEq, Repr

/-- LinkState dataclass (robot.py lines 30-34): velocities are optional. -/
structure LinkState where
  pose : Pose
  linear_velocity : Option Vec3
  angular_velocity : Option Vec3
deriving DecidableEq, Repr

/-- The six reaction-force components of a raw joint-state query. -/
structure Wrench where
  fx : ℚ
  fy : ℚ
  fz : ℚ
  mx : ℚ
  my : ℚ
  mz : ℚ
deriving DecidableEq, Repr

/-- Raw result tuple of the engine's per-joint state query
(`getJointState`): element 0 is the position, element 1 the velocity,
element 2 the six reaction forces, element 3 the applied torque. -/
structure RawJointState where
  position : ℚ
  velocity : ℚ
  reaction_forces : Wrench
  applied_torque : ℚ
deriving DecidableEq, Repr

/-- Raw result tuple of the engine's per-link state query (`getLinkState`),
elements 0-7: world pose, local inertial frame, world link frame, and - when
velocities are computed - the world linear and angular link velocities. -/
structure RawLinkState where
  pos : Vec3
  ori : Quat
  localInertialFramePos : Vec3
  localInertialFrameOrn : Quat
  worldLinkFramePos : Vec3
  worldLinkFrameOrn : Quat
  linVel : Vec3
  angVel : Vec3
deriving DecidableEq, Repr

/-- Raw result tuple of the engine's dynamics query (`getDynamicsInfo`), in
the fixed order consumed by `DynamicsInfo(*ret)` in robot.py line 181. -/
structure RawDynamicsInfo where
  mass : ℚ
  lateral_friction : ℚ
  local_inertia_diagonal : Vec3
  local_inertial_position : Vec3
  local_inertial_orientation : Quat
  restitution : ℚ
  rolling_friction : ℚ
  spinning_friction : ℚ
  contact_damping : ℚ
  contact_stiffness : ℚ
deriving DecidableEq, Repr

/-- Fields 1 (joint name) and 12 (associated link name) of the engine's
`getJointInfo` result tuple; the other elements are unused by the source. -/
structure JointInfoRaw where
  jointName : String
  linkName : String
deriving DecidableEq, Repr

/-- Abstract snapshot of the external physics-engine client: each field is
the (pure) result the engine would return for the corresponding query on the
robot's body. `getBodyInfo` is (base/root link name, body name);
`getBaseVelocity` is (linear velocity, angular velocity), the engine's
documented return order. -/
structure Engine where
  getBodyInfo : String × String
  getNumJoints : Nat
  getJointInfo : Nat → JointInfoRaw
  getBasePositionAndOrientation : Vec3 × Quat
  getBaseVelocity : Vec3 × Vec3
  getLinkState : Int → Bool → RawLinkState
  getJointState : Int → RawJointState
  getDynamicsInfo : Int → RawDynamicsInfo

/-- Python-dict single-key assignment on an association list: replaces the
value in place when the key is present, appends otherwise. -/
def pyInsert (d : List (String × Int)) (k : String) (v : Int) :
    List (String × Int) :=
  if (d.lookup k).isSome then
    d.map fun kv => if kv.1 = k then (k, v) else kv
  else
    d ++ [(k, v)]

/-- DynamicsInfo dataclass (robot.py lines 47-58): contact damping and
stiffness are optional, all other coefficients are plain scalars. -/
structure DynamicsInfo where
  mass : ℚ
  lateral_friction : ℚ
  local_inertia_diagonal : Vec3
  local_inertial_position : Vec3
  local_inertial_orientation : Quat
  restitution : ℚ
  rolling_friction : ℚ
  spinning_friction : ℚ
  contact_damping : Option ℚ
  contact_stiffness : Option ℚ
deriving DecidableEq, Repr

/-- A value passed to the engine's `changeDynamics` call: a scalar, a
3-tuple, or a boolean. -/
inductive BulletVal where
  | num (q : ℚ)
  | vec (v : Vec3)
  | flag (b : Bool)
deriving DecidableEq, Repr

/-- SetDynamicsParams dataclass (robot.py lines 68-80): every field
optional, None meaning "leave unchanged". -/
structure SetDynamicsParams where
  mass : Option ℚ := none
  lateral_friction : Option ℚ := none
  local_inertia_diagonal : Option Vec3 := none
  restitution : Option ℚ := none
  rolling_friction : Option ℚ := none
  spinning_friction : Option ℚ := none
  linear_damping : Option ℚ := none
  angular_damping : Option ℚ := none
  friction_anchor : Option Bool := none
  contact_damping : Option ℚ := none
  contact_stiffness : Option ℚ := none
deriving DecidableEq, Repr

/-- Key-renaming of robot.py line 83-84: `re.sub` of every underscore
followed by a character with that character uppercased. -/
def camelAux : List Char → List Char
  | [] => []
  | '_' :: c :: rest => c.toUpper :: camelAux rest
  | c :: rest => c :: camelAux rest

/-- The `convert` helper inside `to_bullet_kwargs` (robot.py lines 83-84). -/
def convert (s : String) : String := ⟨camelAux s.data⟩

/-- `dataclasses.asdict` of a SetDynamicsParams: the fields, in declaration
order, under their underscore-separated names. -/
def SetDynamicsParams.asdict (p : SetDynamicsParams) :
    List (String × Option BulletVal) :=
  [("mass", p.mass.map .num),
   ("lateral_friction", p.lateral_friction.map .num),
   ("local_inertia_diagonal", p.local_inertia_diagonal.map .vec),
   ("restitution", p.restitution.map .num),
   ("rolling_friction", p.rolling_friction.map .num),
   ("spinning_friction", p.spinning_friction.map .num),
   ("linear_damping", p.linear_damping.map .num),
   ("angular_damping", p.angular_damping.map .num),
   ("friction_anchor", p.friction_anchor.map .flag),
   ("contact_damping", p.contact_damping.map .num),
   ("contact_stiffness", p.contact_stiffness.map .num)]

/-- `SetDynamicsParams.to_bullet_kwargs` (robot.py lines 82-88): drop unset
(None) fields and rename keys from underscore-separated to camelCase. -/
def SetDynamicsParams.to_bullet_kwargs (p : SetDynamicsParams) :
    List (String × BulletVal) :=
  p.asdict.filterMap fun kv => kv.2.map fun v => (convert kv.1, v)

/-- Python `dict.update`: entries of `base` keep their place with the value
overridden by `upd` when `upd` has the key; keys of `upd` absent from `base`
are appended. -/
def pyDictUpdate {β : Type} (base upd : List (String × β)) :
    List (String × β) :=
  (base.map fun kv => (kv.1, (upd.lookup kv.1).getD kv.2)) ++
    upd.filter fun kv => (base.lookup kv.1).isNone

/-- A state-changing command issued to the engine. -/
inductive Command where
  | resetBasePositionAndOrientation (posObj : Vec3) (ornObj : Quat)
deriving DecidableEq, Repr

/-- The Robot dataclass (robot.py lines 91-99): a body index plus the two
name-to-index mappings and the root-link name built at construction. -/
structure Robot where
  body_id : Int
  joints : List (String × Int)
  links : List (String × Int)
  root_link : String
deriving DecidableEq, Repr

/-- `Robot.__post_init__` (robot.py lines 101-117): map the root link name
to the sentinel index -1, then, for each joint index, record the joint name
and the associated link name. The Python loop fills the two dicts in one
pass; since they are disjoint dicts this is two folds. -/
def mkRobot (body_id : Int) (e : Engine) : Robot :=
  let root_name := e.getBodyInfo.1
  let links0 := pyInsert [] root_name (-1)
  let links := (List.range e.getNumJoints).foldl
    (fun d idx => pyInsert d (e.getJointInfo idx).linkName (Int.ofNat idx)) links0
  let joints := (List.range e.getNumJoints).foldl
    (fun d idx => pyInsert d (e.getJointInfo idx).jointName (Int.ofNat idx)) []
  { body_id := body_id, joints := joints, links := links,
    root_link := root_name }

/-- `Robot.joint_state` (robot.py lines 119-122): resolve the joint name,
then keep elements 0, 1 and 3 of the raw engine tuple, discarding the
reaction forces (element 2). -/
def joint_state (r : Robot) (e : Engine) (name : String) : Option JointState :=
  (r.joints.lookup name).map fun joint_id =>
    let ret := e.getJointState joint_id
    { position := ret.position, velocity := ret.velocity,
      applied_torque := ret.applied_torque }

/-- `Robot.link_state` (robot.py lines 124-145). For the sentinel index -1
the base-pose query is used; the source line 129 unpacks the engine's
(linear, angular) base-velocity pair as `a_vel, l_vel`, and line 145 builds
`LinkState(pose, l_vel, a_vel)`. -/
def link_state (r : Robot) (e : Engine) (name : String)
    (compute_velocity : Bool) : Option LinkState :=
  (r.links.lookup name).map fun link_id =>
    if link_id = -1 then
      let po := e.getBasePositionAndOrientation
      if compute_velocity then
        let a_vel := e.getBaseVelocity.1
        let l_vel := e.getBaseVelocity.2
        { pose := ⟨po.1, po.2⟩, linear_velocity := some l_vel,
          angular_velocity := some a_vel }
      else
        { pose := ⟨po.1, po.2⟩, linear_velocity := none,
          angular_velocity := none }
    else
      let ret := e.getLinkState link_id compute_velocity
      if compute_velocity then
        { pose := ⟨ret.pos, ret.ori⟩, linear_velocity := some ret.linVel,
          angular_velocity := some ret.angVel }
      else
        { pose := ⟨ret.pos, ret.ori⟩, linear_velocity := none,
          angular_velocity := none }

/-- The heights (third pose coordinate) of the link states of the given
dictionary entries, as generated inside `bring_on_the_ground`
(robot.py lines 170-171). -/
def linkHeights (r : Robot) (e : Engine) :
    List (String × Int) → Option (List ℚ)
  | [] => some []
  | kv :: rest =>
    (link_state r e kv.1 false).bind fun st =>
      (linkHeights r e rest).map fun hs => st.pose.vector.z :: hs

/-- Python `min` over a list: fails on an empty iterable. -/
def pyMin : List ℚ → Option ℚ
  | [] => none
  | x :: xs => some (xs.foldl min x)

/-- The minimum vertical coordinate across all link/base poses, as computed
by `bring_on_the_ground` (robot.py lines 170-171). -/
def groundHeight (r : Robot) (e : Engine) : Option ℚ :=
  (linkHeights r e r.links).bind pyMin

/-- `Robot.bring_on_the_ground` (robot.py lines 169-175): raise when the
minimum height exceeds zero, otherwise issue a base-pose reset to
`[0, 0, -h + padding]` with identity orientation. The result pairs the list
of state-changing commands issued with the outcome. -/
def bring_on_the_ground (r : Robot) (e : Engine) (padding : ℚ) :
    Option (List Command × Except String Unit) :=
  (groundHeight r e).map fun h =>
    if h > 0 then ([], Except.error "Robot is already on the ground")
    else
      ([Command.resetBasePositionAndOrientation ⟨0, 0, -h + padding⟩
          ⟨0, 0, 0, 1⟩], Except.ok ())

/-- `Robot.dynamics_info` (robot.py lines 177-188): wrap the raw tuple into
the dataclass, then normalize the sentinel -1 of contact damping and
stiffness to None. -/
def dynamics_info (r : Robot) (e : Engine) (name : String) :
    Option DynamicsInfo :=
  (r.links.lookup name).map fun link_id =>
    let ret := e.getDynamicsInfo link_id
    let info : DynamicsInfo :=
      { mass := ret.mass, lateral_friction := ret.lateral_friction,
        local_inertia_diagonal := ret.local_inertia_diagonal,
        local_inertial_position := ret.local_inertial_position,
        local_inertial_orientation := ret.local_inertial_orientation,
        restitution := ret.restitution,
        rolling_friction := ret.rolling_friction,
        spinning_friction := ret.spinning_friction,
        contact_damping := some ret.contact_damping,
        contact_stiffness := some ret.contact_stiffness }
    let info1 :=
      if info.contact_damping = some (-1) then
        { info with contact_damping := none } else info
    let info2 :=
      if info1.contact_stiffness = some (-1) then
        { info1 with contact_stiffness := none } else info1
    info2

/-- `Robot.set_dynamics` (robot.py lines 190-200): build a params record
from the keyword overrides, convert both records to engine kwargs, merge
with `dict.update` (overrides win), and issue a single `changeDynamics`
call; the result is the resolved link index with the final argument list. -/
def set_dynamics (r : Robot) (name : String)
    (params : Option SetDynamicsParams) (kwargs : SetDynamicsParams) :
    Option (Int × List (String × BulletVal)) :=
  (r.links.lookup name).map fun link_id =>
    let kw_params := kwargs
    let bullet_args :=
      match params with
      | some p => pyDictUpdate p.to_bullet_kwargs kw_params.to_bullet_kwargs
      | none => kw_params.to_bullet_kwargs
    (link_id, bullet_args)

/-- Spec-side field-wise merge of two sparse records, the second (keyword
override) winning on any field both set. -/
def mergeParams (base ov : SetDynamicsParams) : SetDynamicsParams :=
  { mass := ov.mass <|> base.mass,
    lateral_friction := ov.lateral_friction <|> base.lateral_friction,
    local_inertia_diagonal :=
      ov.local_inertia_diagonal <|> base.local_inertia_diagonal,
    restitution := ov.restitution <|> base.restitution,
    rolling_friction := ov.rolling_friction <|> base.rolling_friction,
    spinning_friction := ov.spinning_friction <|> base.spinning_friction,
    linear_damping := ov.linear_damping <|> base.linear_damping,
    angular_damping := ov.angular_damping <|> base.angular_damping,
    friction_anchor := ov.friction_anchor <|> base.friction_anchor,
    contact_damping := ov.contact_damping <|> base.contact_damping,
    contact_stiffness := ov.contact_stiffness <|> base.contact_stiffness }

/-- Spec-side merge of an optional base record with the keyword overrides. -/
def mergeOver (po : Option SetDynamicsParams) (kw : SetDynamicsParams) :
    SetDynamicsParams :=
  match po with
  | none => kw
  | some p => mergeParams p kw

/-- Spec-side static mapping table: each field of a sparse dynamics record
under its camelCase engine argument name. -/
def camelTable (p : SetDynamicsParams) : List (String × Option BulletVal) :=
  [("mass", p.mass.map .num),
   ("lateralFriction", p.lateral_friction.map .num),
   ("localInertiaDiagonal", p.local_inertia_diagonal.map .vec),
   ("restitution", p.restitution.map .num),
   ("rollingFriction", p.rolling_friction.map .num),
   ("spinningFriction", p.spinning_friction.map .num),
   ("linearDamping", p.linear_damping.map .num),
   ("angularDamping", p.angular_damping.map .num),
   ("frictionAnchor", p.friction_anchor.map .flag),
   ("contactDamping", p.contact_damping.map .num),
   ("contactStiffness", p.contact_stiffness.map .num)]

/-- First set value for a key in a table of optional entries. -/
def chain {β : Type} : List (String × Option β) → String → Option β
  | [], _ => none
  | (n, v) :: rest, k => (if n = k then v else none) <|> chain rest k

/-- Spec-side description of the arguments `set_dynamics` forwards to the
engine: the non-None fields of the override-precedence merge, renamed by the
static camelCase table. -/
def specDynamicsArgs (po : Option SetDynamicsParams)
    (kw : SetDynamicsParams) : String → Option BulletVal :=
  chain (camelTable (mergeOver po kw))

/-- Test fixture: an engine with one joint "hinge" linking root "base" to
link "arm", and distinctive values in every query slot. -/
def eT : Engine :=
  { getBodyInfo := ("base", "robot"),
    getNumJoints := 1,
    getJointInfo := fun _ => ⟨"hinge", "arm"⟩,
    getBasePositionAndOrientation := (⟨7, 8, 9⟩, ⟨0, 0, 0, 1⟩),
    getBaseVelocity := (⟨1, 2, 3⟩, ⟨4, 5, 6⟩),
    getLinkState := fun _ _ =>
      ⟨⟨11, 12, 13⟩, ⟨0, 0, 0, 1⟩, ⟨0, 0, 0⟩, ⟨0, 0, 0, 1⟩, ⟨0, 0, 0⟩,
        ⟨0, 0, 0, 1⟩, ⟨21, 22, 23⟩, ⟨31, 32, 33⟩⟩,
    getJointState := fun _ => ⟨1/2, 2/3, ⟨0, 0, 0, 0, 0, 0⟩, 3/4⟩,
    getDynamicsInfo := fun _ =>
      ⟨5, 6, ⟨1, 2, 3⟩, ⟨0, 0, 0⟩, ⟨0, 0, 0, 1⟩, 7, 8, 9, -1, 7⟩ }

/-- Test fixture: the same engine with the base resting at height -3/10. -/
def eG : Engine :=
  { eT with getBasePositionAndOrientation := (⟨0, 0, -3/10⟩, ⟨0, 0, 0, 1⟩) }

/-- Test fixture: the robot handle built on `eT`. -/
def rT : Robot :=
  { body_id := 0, joints := [("hinge", 0)],
    links := [("base", -1), ("arm", 0)], root_link := "base" }

end SilverBullet

namespace SilverBullet

@[simp]
theorem Vec3.add_x (a b : Vec3) : (a + b).x = a.x + b.x := rfl

@[simp]
theorem Vec3.add_y (a b : Vec3) : (a + b).y = a.y + b.y := rfl

@[simp]
theorem Vec3.add_z (a b : Vec3) : (a + b).z = a.z + b.z := rfl

theorem lookup_cons_ite {β : Type} (k a : String) (b : β)
    (es : List (String × β)) :
    ((k, b) :: es).lookup a = if a = k then some b else es.lookup a := by
  rw [List.lookup_cons]
  cases hbeq : a == k
  · have h : ¬a = k := by simpa using hbeq
    simp [h]
  · have h : a = k := by simpa using hbeq
    simp [h]

theorem lookup_map_replace (d : List (String × Int)) (k : String) (v : Int)
    (s : String) :
    ((d.map fun kv => if kv.1 = k then (k, v) else kv).lookup s) =
      if s = k then (d.lookup k).map (fun _ => v) else d.lookup s := by
  induction d with
  | nil => simp [apply_ite]
  | cons a d ih =>
    obtain ⟨a1, a2⟩ := a
    by_cases hak : a1 = k
    · subst hak
      by_cases hsk : s = a1
      · subst hsk
        simp [lookup_cons_ite]
      · simp [lookup_cons_ite, hsk, ih]
    · have hka : ¬k = a1 := fun h => hak h.symm
      by_cases hsa : s = a1
      · subst hsa
        simp [lookup_cons_ite, hak, hka]
      · simp only [List.map_cons, if_neg hak, lookup_cons_ite, hsa,
          if_neg hsa, ih]
        by_cases hsk : s = k <;> simp [hsk, lookup_cons_ite, hsa, hka]

theorem lookup_pyInsert (d : List (String × Int)) (k : String) (v : Int)
    (s : String) :
    (pyInsert d k v).lookup s = if s = k then some v else d.lookup s := by
  unfold pyInsert
  by_cases hk : (d.lookup k).isSome
  · obtain ⟨w, hw⟩ := Option.isSome_iff_exists.mp hk
    simp [hk, lookup_map_replace, hw]
  · have hnone : d.lookup k = none := Option.not_isSome_iff_eq_none.mp hk
    rw [if_neg hk, List.lookup_append]
    by_cases hsk : s = k
    · subst hsk
      simp [hnone, lookup_cons_ite]
    · simp [lookup_cons_ite, hsk]

theorem lookup_foldl_insert_hit (f : Nat → String) (g : Nat → Int)
    (d : List (String × Int)) (n : Nat)
    (hinj : ∀ i j, i < n → j < n → f i = f j → i = j) (i : Nat) (hi : i < n) :
    (((List.range n).foldl (fun d idx => pyInsert d (f idx) (g idx))
        d).lookup (f i)) = some (g i) := by
  induction n with
  | zero => exact absurd hi (Nat.not_lt_zero i)
  | succ n ih =>
    rw [List.range_succ, List.foldl_append, List.foldl_cons, List.foldl_nil,
      lookup_pyInsert]
    by_cases hin : i = n
    · subst hin
      simp
    · have hlt : i < n := Nat.lt_of_le_of_ne (Nat.le_of_lt_succ hi) hin
      have hne : f i ≠ f n := by
        intro heq
        exact hin (hinj i n (Nat.lt_succ_of_lt hlt) (Nat.lt_succ_self n) heq)
      rw [if_neg hne]
      exact ih (fun a b ha hb => hinj a b (Nat.lt_succ_of_lt ha)
        (Nat.lt_succ_of_lt hb)) hlt

theorem lookup_foldl_insert_miss (f : Nat → String) (g : Nat → Int)
    (d : List (String × Int)) (n : Nat) (s : String)
    (hs : ∀ i, i < n → f i ≠ s) :
    (((List.range n).foldl (fun d idx => pyInsert d (f idx) (g idx))
        d).lookup s) = d.lookup s := by
  induction n with
  | zero => simp
  | succ n ih =>
    rw [List.range_succ, List.foldl_append, List.foldl_cons, List.foldl_nil,
      lookup_pyInsert, if_neg (fun h => hs n (Nat.lt_succ_self n) h.symm)]
    exact ih fun i h => hs i (Nat.lt_succ_of_lt h)

/-- C4: Robot construction builds `joints` mapping each joint name to its
joint index, and `links` mapping the root link name to the sentinel -1 and
each joint's associated link name to the joint index — and nothing else —
whenever the engine metadata uses pairwise-distinct names. -/
theorem mkRobot_name_index_maps (bid : Int) (e : Engine)
    (hJ : ∀ i j, i < e.getNumJoints → j < e.getNumJoints →
      (e.getJointInfo i).jointName = (e.getJointInfo j).jointName → i = j)
    (hL : ∀ i j, i < e.getNumJoints → j < e.getNumJoints →
      (e.getJointInfo i).linkName = (e.getJointInfo j).linkName → i = j)
    (hR : ∀ i, i < e.getNumJoints →
      (e.getJointInfo i).linkName ≠ e.getBodyInfo.1) :
    (∀ i, i < e.getNumJoints →
      ((mkRobot bid e).joints.lookup (e.getJointInfo i).jointName) =
        some (Int.ofNat i)) ∧
    (∀ s, (∀ i, i < e.getNumJoints → (e.getJointInfo i).jointName ≠ s) →
      ((mkRobot bid e).joints.lookup s) = none) ∧
    ((mkRobot bid e).links.lookup e.getBodyInfo.1 = some (-1)) ∧
    (∀ i, i < e.getNumJoints →
      ((mkRobot bid e).links.lookup (e.getJointInfo i).linkName) =
        some (Int.ofNat i)) ∧
    (∀ s, s ≠ e.getBodyInfo.1 →
      (∀ i, i < e.getNumJoints → (e.getJointInfo i).linkName ≠ s) →
      ((mkRobot bid e).links.lookup s) = none) := by
  refine ⟨?_, ?_, ?_, ?_, ?_⟩
  · intro i hi
    exact lookup_foldl_insert_hit _ _ [] e.getNumJoints hJ i hi
  · intro s hs
    rw [show (mkRobot bid e).joints = (List.range e.getNumJoints).foldl
      (fun d idx => pyInsert d (e.getJointInfo idx).jointName
        (Int.ofNat idx)) [] from rfl]
    rw [lookup_foldl_insert_miss _ _ [] e.getNumJoints s hs]
    simp
  · rw [show (mkRobot bid e).links = (List.range e.getNumJoints).foldl
      (fun d idx => pyInsert d (e.getJointInfo idx).linkName
        (Int.ofNat idx)) (pyInsert [] e.getBodyInfo.1 (-1)) from rfl]
    rw [lookup_foldl_insert_miss _ _ _ e.getNumJoints _ hR,
      lookup_pyInsert]
    simp
  · intro i hi
    exact lookup_foldl_insert_hit _ _ _ e.getNumJoints hL i hi
  · intro s hsRoot hs
    rw [show (mkRobot bid e).links = (List.range e.getNumJoints).foldl
      (fun d idx => pyInsert d (e.getJointInfo idx).linkName
        (Int.ofNat idx)) (pyInsert [] e.getBodyInfo.1 (-1)) from rfl]
    rw [lookup_foldl_insert_miss _ _ _ e.getNumJoints s hs, lookup_pyInsert,
      if_neg hsRoot]
    simp

/-- Witness for C4 at the spec scenario: root link "base", one joint
"hinge" linking to "arm" yields joints {hinge: 0} and links
{base: -1, arm: 0}. -/
theorem mkRobot_name_index_maps_witness :
    ((mkRobot 0 eT).joints.lookup "hinge" = some 0) ∧
    ((mkRobot 0 eT).links.lookup "base" = some (-1)) ∧
    ((mkRobot 0 eT).links.lookup "arm" = some 0) ∧
    (mkRobot 0 eT).joints = [("hinge", 0)] ∧
    (mkRobot 0 eT).links = [("base", -1), ("arm", 0)] := by
  have h := mkRobot_name_index_maps 0 eT
    (by intro i j hi hj _
        have hi1 : i < 1 := hi
        have hj1 : j < 1 := hj
        omega)
    (by intro i j hi hj _
        have hi1 : i < 1 := hi
        have hj1 : j < 1 := hj
        omega)
    (by intro i hi; simp [eT])
  exact ⟨h.1 0 (by decide), h.2.2.1, h.2.2.2.1 0 (by decide), rfl, rfl⟩

/-- C5: for a registered joint name, `joint_state` returns exactly elements
0 (position), 1 (velocity) and 3 (applied torque) of the engine's raw
per-joint query result, discarding the reaction forces (element 2). -/
theorem joint_state_components (r : Robot) (e : Engine) (name : String)
    (joint_id : Int) (h : r.joints.lookup name = some joint_id) :
    joint_state r e name = some
      { position := (e.getJointState joint_id).position,
        velocity := (e.getJointState joint_id).velocity,
        applied_torque := (e.getJointState joint_id).applied_torque } := by
  simp [joint_state, h]

/-- Witness for C5 at a concrete robot and engine. -/
theorem joint_state_components_witness :
    (rT.joints.lookup "hinge" = some 0) ∧
    joint_state rT eT "hinge" = some
      { position := 1/2, velocity := 2/3, applied_torque := 3/4 } := by
  refine ⟨rfl, ?_⟩
  exact joint_state_components rT eT "hinge" 0 rfl

/-- C6: for a registered link name, `dynamics_info` wraps the engine's raw
dynamics tuple field-for-field, except that contact damping and contact
stiffness become None exactly when the engine reports the sentinel -1. -/
theorem dynamics_info_sentinel_normalization (r : Robot) (e : Engine)
    (name : String) (link_id : Int) (h : r.links.lookup name = some link_id) :
    dynamics_info r e name = some
      { mass := (e.getDynamicsInfo link_id).mass,
        lateral_friction := (e.getDynamicsInfo link_id).lateral_friction,
        local_inertia_diagonal :=
          (e.getDynamicsInfo link_id).local_inertia_diagonal,
        local_inertial_position :=
          (e.getDynamicsInfo link_id).local_inertial_position,
        local_inertial_orientation :=
          (e.getDynamicsInfo link_id).local_inertial_orientation,
        restitution := (e.getDynamicsInfo link_id).restitution,
        rolling_friction := (e.getDynamicsInfo link_id).rolling_friction,
        spinning_friction := (e.getDynamicsInfo link_id).spinning_friction,
        contact_damping :=
          if (e.getDynamicsInfo link_id).contact_damping = -1 then none
          else some (e.getDynamicsInfo link_id).contact_damping,
        contact_stiffness :=
          if (e.getDynamicsInfo link_id).contact_stiffness = -1 then none
          else some (e.getDynamicsInfo link_id).contact_stiffness } := by
  simp only [dynamics_info, h, Option.map_some]
  by_cases hcd : (e.getDynamicsInfo link_id).contact_damping = -1 <;>
    by_cases hcs : (e.getDynamicsInfo link_id).contact_stiffness = -1 <;>
    simp [hcd, hcs]

/-- Witness for C6: the fixture engine reports contact damping -1
(normalized to None) and contact stiffness 7 (passed through). -/
theorem dynamics_info_sentinel_normalization_witness :
    (rT.links.lookup "arm" = some 0) ∧
    dynamics_info rT eT "arm" = some
      { mass := 5, lateral_friction := 6,
        local_inertia_diagonal := ⟨1, 2, 3⟩,
        local_inertial_position := ⟨0, 0, 0⟩,
        local_inertial_orientation := ⟨0, 0, 0, 1⟩,
        restitution := 7, rolling_friction := 8, spinning_friction := 9,
        contact_damping := none, contact_stiffness := some 7 } := by
  refine ⟨rfl, ?_⟩
  have h := dynamics_info_sentinel_normalization rT eT "arm" 0 rfl
  rw [h]
  simp only [eT]
  norm_num

/-- C8: for the root link (mapped to sentinel index -1), `link_state`
sources the pose from the base-pose query for both values of
`compute_velocity`, and the result does not change when the per-link query
is replaced by anything else. -/
theorem link_state_root_uses_base_pose (r : Robot) (e : Engine)
    (name : String) (cv : Bool) (h : r.links.lookup name = some (-1)) :
    ((link_state r e name cv).map LinkState.pose = some
      (Pose.mk e.getBasePositionAndOrientation.1
        e.getBasePositionAndOrientation.2)) ∧
    (∀ gl, link_state r { e with getLinkState := gl } name cv =
      link_state r e name cv) := by
  constructor
  · cases cv <;> simp [link_state, h]
  · intro gl
    cases cv <;> simp [link_state, h]

/-- Witness for C8 at a concrete robot and engine, for both values of
`compute_velocity`. -/
theorem link_state_root_uses_base_pose_witness :
    (rT.links.lookup "base" = some (-1)) ∧
    ((link_state rT eT "base" false).map LinkState.pose =
      some (Pose.mk ⟨7, 8, 9⟩ ⟨0, 0, 0, 1⟩)) ∧
    ((link_state rT eT "base" true).map LinkState.pose =
      some (Pose.mk ⟨7, 8, 9⟩ ⟨0, 0, 0, 1⟩)) := by
  refine ⟨rfl, ?_, ?_⟩
  · exact (link_state_root_uses_base_pose rT eT "base" false rfl).1
  · exact (link_state_root_uses_base_pose rT eT "base" true rfl).1

/-- C1, failing part (code bug): for the root link with
`compute_velocity=true`, the engine's base-velocity query reports linear
velocity (1,2,3) and angular velocity (4,5,6), yet `link_state` returns
`linear_velocity` = (4,5,6) and `angular_velocity` = (1,2,3): the source
unpacks the engine's (linear, angular) pair as `a_vel, l_vel`, swapping the
two components. The remaining parts of the claim hold: with
`compute_velocity=false` both fields are None, and for a non-root link the
components match the per-link query. -/
theorem link_state_root_velocity_components_swapped :
    (eT.getBaseVelocity = (⟨1, 2, 3⟩, ⟨4, 5, 6⟩)) ∧
    (link_state rT eT "base" true = some
      { pose := ⟨⟨7, 8, 9⟩, ⟨0, 0, 0, 1⟩⟩,
        linear_velocity := some ⟨4, 5, 6⟩,
        angular_velocity := some ⟨1, 2, 3⟩ }) ∧
    (link_state rT eT "base" false = some
      { pose := ⟨⟨7, 8, 9⟩, ⟨0, 0, 0, 1⟩⟩,
        linear_velocity := none, angular_velocity := none }) ∧
    ((eT.getLinkState 0 true).linVel = ⟨21, 22, 23⟩ ∧
      (eT.getLinkState 0 true).angVel = ⟨31, 32, 33⟩) ∧
    (link_state rT eT "arm" true = some
      { pose := ⟨⟨11, 12, 13⟩, ⟨0, 0, 0, 1⟩⟩,
        linear_velocity := some ⟨21, 22, 23⟩,
        angular_velocity := some ⟨31, 32, 33⟩ }) :=
  ⟨rfl, rfl, rfl, ⟨rfl, rfl⟩, rfl⟩

theorem linkHeights_isSome (r : Robot) (e : Engine)
    (l : List (String × Int))
    (hl : ∀ kv ∈ l, (r.links.lookup kv.1).isSome) :
    ∃ hs, linkHeights r e l = some hs ∧ hs.length = l.length := by
  induction l with
  | nil => exact ⟨[], rfl, rfl⟩
  | cons kv rest ih =>
    obtain ⟨lid, hlid⟩ := Option.isSome_iff_exists.mp
      (hl kv (List.mem_cons_self kv rest))
    obtain ⟨hs, hrec, hlen⟩ :=
      ih fun p hp => hl p (List.mem_cons_of_mem kv hp)
    have h1 : (link_state r e kv.1 false).isSome := by
      simp [link_state, hlid]
    obtain ⟨st, hst⟩ := Option.isSome_iff_exists.mp h1
    exact ⟨st.pose.vector.z :: hs,
      by simp [linkHeights, hst, hrec], by simp [hlen]⟩

theorem groundHeight_isSome (r : Robot) (e : Engine) (hne : r.links ≠ []) :
    ∃ h, groundHeight r e = some h := by
  obtain ⟨hs, hhs, hlen⟩ := linkHeights_isSome r e r.links
    (fun kv hkv => List.lookup_isSome_iff.mpr ⟨kv, hkv, by simp⟩)
  cases hs with
  | nil =>
    exact absurd (List.length_eq_zero.mp hlen.symm) hne
  | cons x xs =>
    exact ⟨xs.foldl min x, by simp [groundHeight, hhs, pyMin]⟩

/-- C2: whenever the minimum vertical coordinate h across all link/base
poses satisfies h ≤ 0, `bring_on_the_ground(padding)` issues exactly one
engine command: a reset of the base pose to position [0, 0, -h + padding]
(horizontal coordinates zero) with identity orientation [0, 0, 0, 1]. -/
theorem bring_on_the_ground_resets_base (r : Robot) (e : Engine)
    (padding h : ℚ) (hh : groundHeight r e = some h) (hle : h ≤ 0) :
    bring_on_the_ground r e padding = some
      ([Command.resetBasePositionAndOrientation ⟨0, 0, -h + padding⟩
          ⟨0, 0, 0, 1⟩], Except.ok ()) := by
  simp [bring_on_the_ground, hh, not_lt.mpr hle]

/-- Witness for C2 at the spec scenario: lowest point at height -3/10 and
padding 1/20 reposition the base to vertical coordinate 7/20 = 0.35. -/
theorem bring_on_the_ground_resets_base_witness :
    groundHeight rT eG = some (-3/10) ∧ ((-3/10 : ℚ) ≤ 0) ∧
    bring_on_the_ground rT eG (1/20) = some
      ([Command.resetBasePositionAndOrientation ⟨0, 0, 7/20⟩
          ⟨0, 0, 0, 1⟩], Except.ok ()) := by
  have hg : groundHeight rT eG = some (-3/10) := by
    simp [groundHeight, linkHeights, pyMin, link_state, rT, eG, eT,
      List.lookup]
    norm_num
  refine ⟨hg, by norm_num, ?_⟩
  have h := bring_on_the_ground_resets_base rT eG (1/20) (-3/10) hg
    (by norm_num)
  have harith : (-(-3/10 : ℚ) + 1/20) = 7/20 := by norm_num
  rw [harith] at h
  exact h

/-- C7: `bring_on_the_ground` yields the "already on ground" error exactly
when the minimum vertical coordinate exceeds zero; when that minimum is at
most zero it succeeds. -/
theorem bring_on_the_ground_error_iff (r : Robot) (e : Engine)
    (padding : ℚ) (hne : r.links ≠ []) :
    ∃ h, groundHeight r e = some h ∧
      ((bring_on_the_ground r e padding =
        some ([], Except.error "Robot is already on the ground")) ↔ 0 < h) ∧
      (h ≤ 0 → ∃ cmds,
        bring_on_the_ground r e padding = some (cmds, Except.ok ())) := by
  obtain ⟨h, hh⟩ := groundHeight_isSome r e hne
  refine ⟨h, hh, ?_, ?_⟩
  · by_cases hpos : 0 < h
    · simp [bring_on_the_ground, hh, hpos]
    · simp [bring_on_the_ground, hh, hpos]
  · intro hle
    exact ⟨_, bring_on_the_ground_resets_base r e padding h hh hle⟩

/-- Witness for C7 at a concrete robot whose lowest point is at height 9:
the error is raised, matching 0 < 9. -/
theorem bring_on_the_ground_error_iff_witness :
    (rT.links ≠ []) ∧
    ∃ h, groundHeight rT eT = some h ∧
      ((bring_on_the_ground rT eT 0 =
        some ([], Except.error "Robot is already on the ground")) ↔ 0 < h) ∧
      (h ≤ 0 → ∃ cmds,
        bring_on_the_ground rT eT 0 = some (cmds, Except.ok ())) :=
  ⟨by simp [rT], bring_on_the_ground_error_iff rT eT 0 (by simp [rT])⟩

/-- C10: if `bring_on_the_ground` raises the "already on ground" error, no
state-changing command has been issued to the engine: the command trace of
the failing run is empty (only read-only pose queries precede the check). -/
theorem bring_on_the_ground_error_atomic (r : Robot) (e : Engine)
    (padding : ℚ) (cmds : List Command) (msg : String)
    (h : bring_on_the_ground r e padding = some (cmds, Except.error msg)) :
    cmds = [] := by
  unfold bring_on_the_ground at h
  cases hh : groundHeight r e with
  | none => rw [hh] at h; simp at h
  | some hv =>
    rw [hh] at h
    simp only [Option.map_some'] at h
    by_cases hpos : hv > 0
    · rw [if_pos hpos] at h
      simp only [Option.some.injEq, Prod.mk.injEq] at h
      exact h.1.symm
    · rw [if_neg hpos] at h
      simp only [Option.some.injEq, Prod.mk.injEq] at h
      exact absurd h.2 (fun hcontra => Except.noConfusion hcontra)

/-- Witness for C10: the fixture robot rests above the ground, the call
errors, and the issued command list is empty. -/
theorem bring_on_the_ground_error_atomic_witness :
    (bring_on_the_ground rT eT 0 =
      some ([], Except.error "Robot is already on the ground")) ∧
    ([] : List Command) = [] :=
  ⟨rfl, bring_on_the_ground_error_atomic rT eT 0 []
    "Robot is already on the ground" rfl⟩

theorem omap_orElse {α β : Type} (a b : Option α) (f : α → β) :
    (a <|> b).map f = (a.map f <|> b.map f) := by
  cases a <;> rfl

theorem convert_mass : convert "mass" = "mass" := rfl

theorem convert_lateral_friction :
    convert "lateral_friction" = "lateralFriction" := rfl

theorem convert_local_inertia_diagonal :
    convert "local_inertia_diagonal" = "localInertiaDiagonal" := rfl

theorem convert_restitution : convert "restitution" = "restitution" := rfl

theorem convert_rolling_friction :
    convert "rolling_friction" = "rollingFriction" := rfl

theorem convert_spinning_friction :
    convert "spinning_friction" = "spinningFriction" := rfl

theorem convert_linear_damping :
    convert "linear_damping" = "linearDamping" := rfl

theorem convert_angular_damping :
    convert "angular_damping" = "angularDamping" := rfl

theorem convert_friction_anchor :
    convert "friction_anchor" = "frictionAnchor" := rfl

theorem convert_contact_damping :
    convert "contact_damping" = "contactDamping" := rfl

theorem convert_contact_stiffness :
    convert "contact_stiffness" = "contactStiffness" := rfl

theorem lookup_tbk_cons (n : String) (v : Option BulletVal)
    (rest : List (String × Option BulletVal)) (k : String) :
    ((((n, v) :: rest).filterMap
        fun kv => kv.2.map fun x => (convert kv.1, x)).lookup k) =
      ((if convert n = k then v else none) <|>
        ((rest.filterMap
          fun kv => kv.2.map fun x => (convert kv.1, x)).lookup k)) := by
  cases v with
  | none => simp [List.filterMap_cons]
  | some x =>
    by_cases h : convert n = k
    · simp [List.filterMap_cons, lookup_cons_ite, h]
    · have h2 : ¬k = convert n := fun hh => h hh.symm
      simp [List.filterMap_cons, lookup_cons_ite, h, h2]

theorem lookup_to_bullet_kwargs (p : SetDynamicsParams) (k : String) :
    (p.to_bullet_kwargs).lookup k = chain (camelTable p) k := by
  simp only [SetDynamicsParams.to_bullet_kwargs, SetDynamicsParams.asdict,
    lookup_tbk_cons, List.filterMap_nil, List.lookup_nil,
    convert_mass, convert_lateral_friction, convert_local_inertia_diagonal,
    convert_restitution, convert_rolling_friction, convert_spinning_friction,
    convert_linear_damping, convert_angular_damping, convert_friction_anchor,
    convert_contact_damping, convert_contact_stiffness, chain, camelTable]

theorem chain_eq_none {β : Type} (T : List (String × Option β)) (k : String)
    (h : k ∉ T.map Prod.fst) : chain T k = none := by
  induction T with
  | nil => rfl
  | cons a T ih =>
    obtain ⟨n, v⟩ := a
    simp only [List.map_cons, List.mem_cons] at h
    push_neg at h
    obtain ⟨h1, h2⟩ := h
    simp [chain, if_neg (fun hh : n = k => h1 hh.symm), ih h2]

theorem zipMerge_fst {β : Type} :
    ∀ (T U : List (String × Option β)), T.length = U.length →
      ((List.zipWith (fun a b => (a.1, a.2 <|> b.2)) T U).map Prod.fst) =
        T.map Prod.fst := by
  intro T
  induction T with
  | nil => intro U _; simp
  | cons a T ih =>
    intro U hlen
    cases U with
    | nil => simp at hlen
    | cons b U =>
      simp [ih U (by simpa using hlen)]

theorem chain_orElse {β : Type} :
    ∀ (T U : List (String × Option β)),
      T.map Prod.fst = U.map Prod.fst → (T.map Prod.fst).Nodup →
      ∀ k, (chain T k <|> chain U k) =
        chain (List.zipWith (fun a b => (a.1, a.2 <|> b.2)) T U) k := by
  intro T
  induction T with
  | nil =>
    intro U hkeys _ k
    cases U with
    | nil => simp [chain]
    | cons b U => simp at hkeys
  | cons a T ih =>
    intro U hkeys hnd k
    cases U with
    | nil => simp at hkeys
    | cons b U =>
      obtain ⟨n, v⟩ := a
      obtain ⟨m, w⟩ := b
      simp only [List.map_cons, List.cons.injEq] at hkeys
      obtain ⟨hnm, htail⟩ := hkeys
      subst hnm
      rw [List.map_cons] at hnd
      obtain ⟨hnotmem, hnd2⟩ := List.nodup_cons.mp hnd
      have hlen : T.length = U.length := by
        have := congrArg List.length htail
        simpa using this
      by_cases hk : n = k
      · subst hk
        have hT : chain T n = none := chain_eq_none T n hnotmem
        have hU : chain U n = none := chain_eq_none U n (htail ▸ hnotmem)
        have hZ : chain (List.zipWith
            (fun a b => (a.1, a.2 <|> b.2)) T U) n = none :=
          chain_eq_none _ n (by rw [zipMerge_fst T U hlen]; exact hnotmem)
        simp only [List.zipWith_cons_cons, chain, if_pos rfl, hT, hU, hZ]
        cases v <;> cases w <;> rfl
      · simp only [List.zipWith_cons_cons, chain, if_neg hk]
        simp only [Option.none_orElse]
        exact ih U htail hnd2 k

theorem camelTable_fst (p : SetDynamicsParams) :
    (camelTable p).map Prod.fst =
      ["mass", "lateralFriction", "localInertiaDiagonal", "restitution",
       "rollingFriction", "spinningFriction", "linearDamping",
       "angularDamping", "frictionAnchor", "contactDamping",
       "contactStiffness"] := rfl

theorem camelTable_nodup (p : SetDynamicsParams) :
    ((camelTable p).map Prod.fst).Nodup := by
  rw [camelTable_fst]
  decide

theorem camelTable_merge (P kw : SetDynamicsParams) :
    camelTable (mergeParams P kw) =
      List.zipWith (fun a b => (a.1, a.2 <|> b.2))
        (camelTable kw) (camelTable P) := by
  simp [camelTable, mergeParams, omap_orElse]

theorem lookup_map_getD {β : Type} (base upd : List (String × β))
    (k : String) :
    ((base.map fun kv => (kv.1, (upd.lookup kv.1).getD kv.2)).lookup k) =
      (base.lookup k).map fun v => (upd.lookup k).getD v := by
  induction base with
  | nil => simp
  | cons a base ih =>
    obtain ⟨a1, a2⟩ := a
    by_cases h : k = a1
    · subst h
      simp [lookup_cons_ite]
    · simp [lookup_cons_ite, h, ih]

theorem lookup_filter_isNone {β : Type} (base upd : List (String × β))
    (k : String) :
    ((upd.filter fun kv => (base.lookup kv.1).isNone).lookup k) =
      if (base.lookup k).isSome then none else upd.lookup k := by
  induction upd with
  | nil => simp [apply_ite]
  | cons u us ih =>
    obtain ⟨u1, u2⟩ := u
    by_cases hcond : (base.lookup u1).isNone
    · rw [List.filter_cons_of_pos (by simpa using hcond)]
      by_cases hk : k = u1
      · subst hk
        have hs : ¬(base.lookup k).isSome := by
          simp [Option.isNone_iff_eq_none.mp hcond]
        simp [lookup_cons_ite, hs]
      · simp [lookup_cons_ite, hk, ih]
    · rw [List.filter_cons_of_neg (by simpa using hcond)]
      by_cases hk : k = u1
      · subst hk
        have hs : (base.lookup k).isSome := by
          cases hb : base.lookup k
          · exact absurd (by simp [hb]) hcond
          · simp
        simp [ih, hs]
      · simp [ih, hk, lookup_cons_ite]

theorem lookup_pyDictUpdate {β : Type} (base upd : List (String × β))
    (k : String) :
    (pyDictUpdate base upd).lookup k =
      ((upd.lookup k) <|> (base.lookup k)) := by
  rw [pyDictUpdate, List.lookup_append, lookup_map_getD,
    lookup_filter_isNone]
  cases hb : base.lookup k <;> cases hu : upd.lookup k <;> simp [hb, hu]

/-- C3: `set_dynamics` forwards to the engine exactly the non-None fields
of the optional base record merged with the keyword overrides (override
values winning field-by-field), with unset fields dropped and field names
renamed to camelCase: the final argument mapping coincides with the
spec-side static camelCase table of the override-precedence merge. -/
theorem set_dynamics_forwards_merged_args (r : Robot) (name : String)
    (link_id : Int) (po : Option SetDynamicsParams)
    (kw : SetDynamicsParams) (h : r.links.lookup name = some link_id) :
    ∃ args, set_dynamics r name po kw = some (link_id, args) ∧
      ∀ k, args.lookup k = specDynamicsArgs po kw k := by
  cases po with
  | none =>
    refine ⟨kw.to_bullet_kwargs, by simp [set_dynamics, h], ?_⟩
    intro k
    rw [lookup_to_bullet_kwargs]
    rfl
  | some P =>
    refine ⟨pyDictUpdate P.to_bullet_kwargs kw.to_bullet_kwargs,
      by simp [set_dynamics, h], ?_⟩
    intro k
    rw [lookup_pyDictUpdate, lookup_to_bullet_kwargs,
      lookup_to_bullet_kwargs]
    rw [chain_orElse (camelTable kw) (camelTable P) rfl
      (camelTable_nodup kw) k]
    show _ = chain (camelTable (mergeOver (some P) kw)) k
    rw [show mergeOver (some P) kw = mergeParams P kw from rfl,
      camelTable_merge P kw]

/-- Witness for C3: base record {mass := 2, restitution := 1/2} with
keyword override {mass := 3} forwards mass 3 (override wins),
restitution 1/2, and nothing else. -/
theorem set_dynamics_forwards_merged_args_witness :
    (rT.links.lookup "arm" = some 0) ∧
    ∃ args, set_dynamics rT "arm"
        (some { mass := some 2, restitution := some (1/2) })
        { mass := some 3 } = some (0, args) ∧
      args.lookup "mass" = some (.num 3) ∧
      args.lookup "restitution" = some (.num (1/2)) ∧
      args.lookup "contactDamping" = none := by
  refine ⟨rfl, ?_⟩
  obtain ⟨args, ha, hs⟩ := set_dynamics_forwards_merged_args rT "arm" 0
    (some { mass := some 2, restitution := some (1/2) })
    { mass := some 3 } rfl
  refine ⟨args, ha, ?_, ?_, ?_⟩ <;> rw [hs] <;> rfl

/-- C9: `Pose.dot` is associative, and composing any pose with the identity
pose (zero position vector, unit quaternion {0,0,0,1}) — on either side —
yields that pose unchanged. -/
theorem pose_dot_assoc_and_identity :
    (∀ a b c : Pose, (a.dot b).dot c = a.dot (b.dot c)) ∧
    (∀ a : Pose, a.dot identityPose = a) ∧
    (∀ a : Pose, identityPose.dot a = a) := by
  refine ⟨?_, ?_, ?_⟩
  · intro a b c
    ext <;>
      simp [Pose.dot, multiplyTransforms, quatRotate, Quat.mul, Quat.conj,
        Quat.ofVec, Quat.vec] <;>
      ring
  · intro a
    ext <;>
      simp [Pose.dot, multiplyTransforms, quatRotate, Quat.mul, Quat.conj,
        Quat.ofVec, Quat.vec, identityPose]
  · intro a
    ext <;>
      simp [Pose.dot, multiplyTransforms, quatRotate, Quat.mul, Quat.conj,
        Quat.ofVec, Quat.vec, identityPose]

end SilverBullet
